import Mathlib

/-!
Shallow embedding of the two demo HTTP services of this repository:
the fake-store service (`src/sample_apis/shop_api_main.py`) and the
generic items service (`src/sample_apis/fake_api_main.py`).

Modelling conventions: Python floats carrying currency amounts are
modelled as exact rationals (`ℚ`); Python ints (unbounded) as `Int`;
optional fields as `Option`; a raised `fastapi.HTTPException` as the
error branch of `Except`.  The process-global `store_inventory` list is
passed to the handlers explicitly; a separate state-passing form of each
handler records the state of the global after the call.
-/

/-- `StoreItem` of `shop_api_main.py`: a product of the fake store. -/
structure StoreItem where
  id : Int
  name : String
  description : Option String
  price : ℚ
  tax : Option ℚ
deriving Repr, DecidableEq

/-- `PurchaseOrder` of `shop_api_main.py`; `quantity` defaults to `1`
(pydantic field default). -/
structure PurchaseOrder where
  product_id : Int
  buyer_name : String
  quantity : Int := 1
deriving Repr, DecidableEq

/-- A raised `fastapi.HTTPException`: status code plus detail message. -/
structure HTTPException where
  status_code : Nat
  detail : String
deriving Repr, DecidableEq

/-- The order-confirmation dictionary built by `purchase_item` on
success (keys `message`, `product`, `quantity`, `total_price`). -/
structure OrderConfirmation where
  message : String
  product : StoreItem
  quantity : Int
  total_price : ℚ
deriving Repr, DecidableEq

/-- The seeded in-memory inventory of `shop_api_main.py` (lines 72-105),
in source order. -/
def store_inventory : List StoreItem :=
  [ { id := 1
      name := "Surface Laptop"
      description := some "A sleek Microsoft laptop with an elegant design and robust performance."
      price := 999.99
      tax := some 99.99 }
  , { id := 2
      name := "Wireless Mouse"
      description := some "An ergonomic wireless mouse with long battery life."
      price := 49.99
      tax := some 4.99 }
  , { id := 3
      name := "Pizza"
      description := some "A tasteful argentinian style pizza."
      price := 9.99
      tax := some 1.99 }
  , { id := 4
      name := "Frico"
      description := some "Delicacy from Udine."
      price := 9.99
      tax := some 1.99 } ]

/-- GET `/store/items` (`list_store_items`): returns the global
inventory list as is. -/
def list_store_items : List StoreItem := store_inventory

/-- POST `/store/buy` (`purchase_item`, lines 145-175), with the global
`store_inventory` made an explicit argument.  The generator expression
`next((item for item in store_inventory if item.id == order.product_id), None)`
is first-match lookup (`List.find?`); `if not product` tests for `None`
(pydantic model instances are always truthy); `product.tax or 0`
substitutes `0` when `tax` is `None` (a stored tax of `0.0` is also
falsy in Python, but `or` then yields the same value `0`, so `Option.getD`
is value-equivalent). -/
def purchase_item (store_inventory : List StoreItem) (order : PurchaseOrder) :
    Except HTTPException OrderConfirmation :=
  match store_inventory.find? (fun item => item.id == order.product_id) with
  | none =>
      Except.error
        { status_code := 404
          detail := "Product with ID " ++ toString order.product_id ++ " not found." }
  | some product =>
      let total_price : ℚ :=
        product.price * (order.quantity : ℚ) + (product.tax.getD 0) * (order.quantity : ℚ)
      Except.ok
        { message := "Thank you " ++ order.buyer_name ++ " for your purchase!"
          product := product
          quantity := order.quantity
          total_price := total_price }

/-- The listing handler as a transformer of the process-global state
(the inventory list): response paired with the state after the call.
Translated from the source: the handler only reads `store_inventory`
and never assigns to it, so the state after the call is the state read. -/
def list_store_items_app (s : List StoreItem) : List StoreItem × List StoreItem :=
  (s, s)

/-- The purchase handler as a transformer of the process-global state:
response paired with the state after the call.  The handler body (lines
161-175) only reads `store_inventory`; no assignment to the global
occurs anywhere in the module, so the state is returned unchanged. -/
def purchase_item_app (order : PurchaseOrder) (s : List StoreItem) :
    Except HTTPException OrderConfirmation × List StoreItem :=
  (purchase_item s order, s)

/-- `Item` of `fake_api_main.py`. -/
structure Item where
  name : String
  description : Option String
  price : ℚ
  tax : Option ℚ
deriving Repr, DecidableEq

/-- GET `/items/{item_id}` (`read_item`, lines 131-151 of
`fake_api_main.py`): returns a fixed static item for any id; the
function has no failure path. -/
def read_item (item_id : Int) : Item :=
  { name := "Sample", price := 100, description := some "Example item", tax := some 10 }

/-! ### Binary64 (Python float) arithmetic

The handlers store prices and taxes in Python floats, which are IEEE-754
binary64 values.  The model below represents a float in the normal range
as the dyadic rational `num * 2 ^ exp` and implements the binary64
operations exactly: compute the exact dyadic result, then round its
significand to 53 bits, to nearest, ties to even.  Overflow and
subnormal values do not arise at the inputs evaluated here. -/

/-- A binary64 value in the normal range: the dyadic rational
`num * 2 ^ exp`. -/
structure Fp where
  num : Int
  exp : Int
deriving Repr, DecidableEq

/-- Number of bits of a natural number, with structural fuel (1100
steps cover the whole binary64 range). -/
def bitLenAux : Nat → Nat → Nat
  | 0, _ => 0
  | fuel + 1, n => if n = 0 then 0 else bitLenAux fuel (n / 2) + 1

/-- Number of bits of a natural number: `bitLen 7 = 3`, `bitLen 8 = 4`. -/
def bitLen (n : Nat) : Nat := bitLenAux 1100 n

/-- Round the dyadic value `num * 2 ^ exp` to 53 significant bits, to
nearest, ties to even: binary64 rounding.  When the significand already
fits 53 bits the value is kept exactly; otherwise the dropped remainder
is compared with half of the dropped weight, rounding to the even
quotient on a tie.  The sign is handled symmetrically, as IEEE-754
requires. -/
def roundFp (num : Int) (exp : Int) : Fp :=
  if num = 0 then ⟨0, 0⟩
  else
    let s := num.natAbs
    let L := bitLen s
    if L ≤ 53 then ⟨num, exp⟩
    else
      let k := L - 53
      let q := s / 2 ^ k
      let r := s % 2 ^ k
      let half := 2 ^ (k - 1)
      let q' := if half < r then q + 1
        else if r < half then q
        else if q % 2 = 0 then q else q + 1
      ⟨if 0 ≤ num then (q' : Int) else -(q' : Int), exp + (k : Int)⟩

/-- Binary64 multiplication: exact dyadic product, then one rounding. -/
def fpMul (a b : Fp) : Fp := roundFp (a.num * b.num) (a.exp + b.exp)

/-- Binary64 addition: align the exponents exactly, add, then round
once (the exact sum is kept in full before rounding, so no sticky-bit
bookkeeping is needed). -/
def fpAdd (a b : Fp) : Fp :=
  if a.exp ≤ b.exp then roundFp (a.num + b.num * (2 : Int) ^ (b.exp - a.exp).toNat) a.exp
  else roundFp (a.num * (2 : Int) ^ (a.exp - b.exp).toNat + b.num) b.exp

/-- Conversion of a Python int to a float, as performed by `int * float`
arithmetic (exact for small ints, rounded beyond 53 bits). -/
def intToFp (n : Int) : Fp := roundFp n 0

/-- Two dyadic representations denote the same real value (the
representation is not canonical, so values are compared after bringing
both to the smaller exponent). -/
def Fp.sameValue (a b : Fp) : Prop :=
  a.num * (2 : Int) ^ (a.exp - min a.exp b.exp).toNat =
    b.num * (2 : Int) ^ (b.exp - min a.exp b.exp).toNat

instance (a b : Fp) : Decidable (a.sameValue b) :=
  inferInstanceAs (Decidable
    (a.num * (2 : Int) ^ (a.exp - min a.exp b.exp).toNat =
      b.num * (2 : Int) ^ (b.exp - min a.exp b.exp).toNat))

/-- Source line 167 of `shop_api_main.py` under the programs float
semantics: `(product.price * order.quantity) + ((product.tax or 0) *
order.quantity)` evaluated in binary64 arithmetic. -/
def total_price_float (price : Fp) (tax : Option Fp) (quantity : Int) : Fp :=
  fpAdd (fpMul price (intToFp quantity)) (fpMul (tax.getD ⟨0, 0⟩) (intToFp quantity))

/-- The factored presentation of the same total,
`(price + effective_tax) * quantity`, evaluated in binary64
arithmetic. -/
def total_price_float_factored (price : Fp) (tax : Option Fp) (quantity : Int) : Fp :=
  fpMul (fpAdd price (tax.getD ⟨0, 0⟩)) (intToFp quantity)

/-! ### Helper lemmas -/

/-- If no product of the catalog carries the requested id, the
first-match lookup comes back empty. -/
theorem find?_eq_none_of_no_match (catalog : List StoreItem) (pid : Int)
    (h : ∀ P ∈ catalog, P.id ≠ pid) :
    catalog.find? (fun item => item.id == pid) = none := by
  induction catalog with
  | nil => rfl
  | cons a l ih =>
      have ha : (a.id == pid) = false :=
        beq_eq_false_iff_ne.mpr (h a (List.mem_cons_self a l))
      simp only [List.find?, ha]
      exact ih fun P hP => h P (List.mem_cons_of_mem a hP)

/-- In a catalog whose ids are pairwise distinct, the first-match lookup
at the id of a member `P` returns `P` itself. -/
theorem find?_eq_some_of_pairwise (catalog : List StoreItem) (P : StoreItem) (pid : Int)
    (hP : P ∈ catalog) (hid : pid = P.id)
    (huniq : catalog.Pairwise fun a b => a.id ≠ b.id) :
    catalog.find? (fun item => item.id == pid) = some P := by
  induction catalog with
  | nil => cases hP
  | cons a l ih =>
      rcases List.mem_cons.mp hP with rfl | hmem
      · have hb : (P.id == pid) = true := by simp [hid]
        simp [List.find?, hb]
      · have ha : a.id ≠ P.id := (List.pairwise_cons.mp huniq).1 P hmem
        have hb : (a.id == pid) = false := by
          rw [hid]
          exact beq_eq_false_iff_ne.mpr ha
        simp only [List.find?, hb]
        exact ih hmem (List.pairwise_cons.mp huniq).2

/-- If some product of the catalog carries the requested id, the lookup
succeeds (with whichever matching product comes first). -/
theorem find?_isSome_of_match (catalog : List StoreItem) (pid : Int)
    (h : ∃ P ∈ catalog, P.id = pid) :
    ∃ Q, catalog.find? (fun item => item.id == pid) = some Q := by
  induction catalog with
  | nil => rcases h with ⟨P, hP, _⟩; cases hP
  | cons a l ih =>
      cases hba : (a.id == pid) with
      | true => exact ⟨a, by simp [List.find?, hba]⟩
      | false =>
          rcases h with ⟨P, hP, hPid⟩
          rcases List.mem_cons.mp hP with rfl | hmem
          · rw [beq_eq_false_iff_ne] at hba
            exact absurd hPid hba
          · rcases ih ⟨P, hmem, hPid⟩ with ⟨Q, hQ⟩
            refine ⟨Q, ?_⟩
            simp only [List.find?, hba]
            exact hQ

/-- When the lookup succeeds, `purchase_item` returns the confirmation
record built from the matched product, exactly as in the source. -/
theorem purchase_item_eq_ok (catalog : List StoreItem) (order : PurchaseOrder)
    (product : StoreItem)
    (hf : catalog.find? (fun item => item.id == order.product_id) = some product) :
    purchase_item catalog order = Except.ok
      { message := "Thank you " ++ order.buyer_name ++ " for your purchase!"
        product := product
        quantity := order.quantity
        total_price :=
          product.price * (order.quantity : ℚ) + product.tax.getD 0 * (order.quantity : ℚ) } := by
  simp only [purchase_item, hf]

/-! ### Claim theorems -/

/-- C1: for every catalog respecting the data-model invariant that ids
are pairwise distinct, and every purchase order whose `product_id`
equals the id of a product `P` of the catalog, processing succeeds and
the total price of the confirmation is
`(P.price + (P.tax or 0)) * order.quantity`. -/
theorem purchase_item_total_price (catalog : List StoreItem) (order : PurchaseOrder)
    (P : StoreItem) (hP : P ∈ catalog) (hid : order.product_id = P.id)
    (huniq : catalog.Pairwise fun a b => a.id ≠ b.id) :
    ∃ conf, purchase_item catalog order = Except.ok conf ∧
      conf.total_price = (P.price + P.tax.getD 0) * (order.quantity : ℚ) := by
  have hf := find?_eq_some_of_pairwise catalog P order.product_id hP hid huniq
  refine ⟨_, purchase_item_eq_ok catalog order P hf, ?_⟩
  dsimp only
  ring

/-- Witness for C1 at a concrete catalog and order: buying two units of
the second product succeeds with total `(3 + 1) * 2`. -/
theorem purchase_item_total_price_witness :
    (⟨2, "B", none, 3, some 1⟩ : StoreItem) ∈
        ([⟨1, "A", none, 2, none⟩, ⟨2, "B", none, 3, some 1⟩] : List StoreItem) ∧
    ({ product_id := 2, buyer_name := "Alice", quantity := 2 } : PurchaseOrder).product_id =
        (⟨2, "B", none, 3, some 1⟩ : StoreItem).id ∧
    ([⟨1, "A", none, 2, none⟩, ⟨2, "B", none, 3, some 1⟩] : List StoreItem).Pairwise
        (fun a b => a.id ≠ b.id) ∧
    ∃ conf,
      purchase_item [⟨1, "A", none, 2, none⟩, ⟨2, "B", none, 3, some 1⟩]
          { product_id := 2, buyer_name := "Alice", quantity := 2 } = Except.ok conf ∧
      conf.total_price =
        ((⟨2, "B", none, 3, some 1⟩ : StoreItem).price +
            (⟨2, "B", none, 3, some 1⟩ : StoreItem).tax.getD 0) *
          (({ product_id := 2, buyer_name := "Alice", quantity := 2 } : PurchaseOrder).quantity : ℚ) :=
  ⟨by decide, by decide, by decide,
    purchase_item_total_price _ _ _ (by decide) (by decide) (by decide)⟩

/-- C2: for every catalog and every order whose `product_id` matches no
product id of the catalog, processing fails with exactly the 404 error
whose detail is the sentence built from the requested id, and in no
other way. -/
theorem purchase_item_not_found (catalog : List StoreItem) (order : PurchaseOrder)
    (h : ∀ P ∈ catalog, P.id ≠ order.product_id) :
    purchase_item catalog order =
      Except.error
        { status_code := 404
          detail := "Product with ID " ++ toString order.product_id ++ " not found." } := by
  simp only [purchase_item, find?_eq_none_of_no_match catalog order.product_id h]

/-- Witness for C2: requesting product 99 from a one-product catalog
yields the 404 error mentioning id 99. -/
theorem purchase_item_not_found_witness :
    (∀ P ∈ ([⟨1, "A", none, 2, none⟩] : List StoreItem),
        P.id ≠ ({ product_id := 99, buyer_name := "Carl", quantity := 1 } : PurchaseOrder).product_id) ∧
    purchase_item [⟨1, "A", none, 2, none⟩]
        { product_id := 99, buyer_name := "Carl", quantity := 1 } =
      Except.error
        { status_code := 404
          detail := "Product with ID " ++ toString (99 : Int) ++ " not found." } :=
  ⟨by decide, purchase_item_not_found _ _ (by decide)⟩

/-- C3 counterexample: under the programs actual numeric semantics
(binary64 floats) the two total-price formulas are not interchangeable.
For the product price equal to the binary64 value of the Python literal
0.1 (which is `3602879701896397 * 2 ^ -55`), tax the value of 0.7
(`3152519739159347 * 2 ^ -52`) and quantity 10, the distributed source
formula evaluates to exactly 8 (`4503599627370496 * 2 ^ -49`) while the
factored spec formula evaluates to `9007199254740991 * 2 ^ -50`
(7.999999999999999), a different value. -/
theorem total_price_float_formulas_differ :
    total_price_float ⟨3602879701896397, -55⟩ (some ⟨3152519739159347, -52⟩) 10 =
        ⟨4503599627370496, -49⟩ ∧
    total_price_float_factored ⟨3602879701896397, -55⟩ (some ⟨3152519739159347, -52⟩) 10 =
        ⟨9007199254740991, -50⟩ ∧
    ¬ Fp.sameValue
        (total_price_float ⟨3602879701896397, -55⟩ (some ⟨3152519739159347, -52⟩) 10)
        (total_price_float_factored ⟨3602879701896397, -55⟩ (some ⟨3152519739159347, -52⟩) 10) := by
  refine ⟨by decide, by decide, by decide⟩

/-- C3 as amended: under exact rational currency arithmetic — not under
the binary64 float semantics the program actually computes with, where
the counterexample above refutes the general equivalence — every
successful purchase has its total, computed by the source formula
`price * quantity + (tax or 0) * quantity`, equal to the factored spec
formula `(price + effective_tax) * quantity`. -/
theorem purchase_item_total_price_distrib (catalog : List StoreItem) (order : PurchaseOrder)
    (conf : OrderConfirmation) (h : purchase_item catalog order = Except.ok conf) :
    conf.total_price = (conf.product.price + conf.product.tax.getD 0) * (conf.quantity : ℚ) := by
  cases hfind : List.find? (fun item => item.id == order.product_id) catalog with
  | none =>
      rw [purchase_item, hfind] at h
      exact Except.noConfusion h
  | some product =>
      rw [purchase_item_eq_ok catalog order product hfind] at h
      injection h with h
      subst h
      dsimp only
      ring

/-- Witness for C3: a concrete successful purchase whose recorded total
`9` equals `(2 + 1) * 3`. -/
theorem purchase_item_total_price_distrib_witness :
    purchase_item [⟨1, "A", none, 2, some 1⟩]
        { product_id := 1, buyer_name := "B", quantity := 3 } =
      Except.ok
        { message := "Thank you B for your purchase!"
          product := ⟨1, "A", none, 2, some 1⟩
          quantity := 3
          total_price := 9 } ∧
    ({ message := "Thank you B for your purchase!"
       product := ⟨1, "A", none, 2, some 1⟩
       quantity := 3
       total_price := 9 } : OrderConfirmation).total_price =
      (({ message := "Thank you B for your purchase!"
          product := ⟨1, "A", none, 2, some 1⟩
          quantity := 3
          total_price := 9 } : OrderConfirmation).product.price +
        ({ message := "Thank you B for your purchase!"
           product := ⟨1, "A", none, 2, some 1⟩
           quantity := 3
           total_price := 9 } : OrderConfirmation).product.tax.getD 0) *
        (({ message := "Thank you B for your purchase!"
            product := ⟨1, "A", none, 2, some 1⟩
            quantity := 3
            total_price := 9 } : OrderConfirmation).quantity : ℚ) := by
  have h : purchase_item [⟨1, "A", none, 2, some 1⟩]
      { product_id := 1, buyer_name := "B", quantity := 3 } =
      Except.ok
        { message := "Thank you B for your purchase!"
          product := ⟨1, "A", none, 2, some 1⟩
          quantity := 3
          total_price := 9 } := by
    rw [purchase_item_eq_ok _ _ ⟨1, "A", none, 2, some 1⟩ (by decide)]
    simp only [Except.ok.injEq, OrderConfirmation.mk.injEq]
    refine ⟨by decide, trivial, trivial, by norm_num⟩
  exact ⟨h, purchase_item_total_price_distrib _ _ _ h⟩

/-- C4: scenario B of the spec — catalog holding only the Pizza product
(id 3, price 9.99, tax 1.99), order from Bob with the quantity left to
its default: processing succeeds with quantity 1 and total price exactly
11.98. -/
theorem purchase_item_scenarioB :
    purchase_item [⟨3, "Pizza", none, 9.99, some 1.99⟩]
        { product_id := 3, buyer_name := "Bob" } =
      Except.ok
        { message := "Thank you Bob for your purchase!"
          product := ⟨3, "Pizza", none, 9.99, some 1.99⟩
          quantity := 1
          total_price := 11.98 } := by
  rw [purchase_item_eq_ok _ _ ⟨3, "Pizza", none, 9.99, some 1.99⟩ (by simp [List.find?])]
  simp only [Except.ok.injEq, OrderConfirmation.mk.injEq]
  refine ⟨by decide, trivial, trivial, by norm_num⟩

/-- C5: whenever the first-match lookup finds `P`, the confirmation has
exactly the message `Thank you {buyer_name} for your purchase!`, carries
the full matched product record, echoes the requested quantity, and
holds the computed total. -/
theorem purchase_item_confirmation_fields (catalog : List StoreItem) (order : PurchaseOrder)
    (P : StoreItem)
    (hf : catalog.find? (fun item => item.id == order.product_id) = some P) :
    purchase_item catalog order = Except.ok
      { message := "Thank you " ++ order.buyer_name ++ " for your purchase!"
        product := P
        quantity := order.quantity
        total_price :=
          P.price * (order.quantity : ℚ) + P.tax.getD 0 * (order.quantity : ℚ) } :=
  purchase_item_eq_ok catalog order P hf

/-- Witness for C5 at a concrete catalog and order. -/
theorem purchase_item_confirmation_fields_witness :
    ([⟨1, "A", none, 2, some 1⟩] : List StoreItem).find?
        (fun item => item.id ==
          ({ product_id := 1, buyer_name := "B", quantity := 3 } : PurchaseOrder).product_id) =
      some ⟨1, "A", none, 2, some 1⟩ ∧
    purchase_item [⟨1, "A", none, 2, some 1⟩]
        { product_id := 1, buyer_name := "B", quantity := 3 } =
      Except.ok
        { message := "Thank you " ++ "B" ++ " for your purchase!"
          product := ⟨1, "A", none, 2, some 1⟩
          quantity := 3
          total_price :=
            (⟨1, "A", none, 2, some 1⟩ : StoreItem).price * ((3 : Int) : ℚ) +
              (⟨1, "A", none, 2, some 1⟩ : StoreItem).tax.getD 0 * ((3 : Int) : ℚ) } :=
  ⟨by decide, purchase_item_confirmation_fields _ _ _ (by decide)⟩

/-- C6: processing never rejects an order because of its quantity — for
every catalog containing a matching product and every integer quantity,
zero and negative included, processing succeeds. -/
theorem purchase_item_any_quantity (catalog : List StoreItem) (order : PurchaseOrder)
    (h : ∃ P ∈ catalog, P.id = order.product_id) :
    ∃ conf, purchase_item catalog order = Except.ok conf := by
  rcases find?_isSome_of_match catalog order.product_id h with ⟨Q, hQ⟩
  exact ⟨_, purchase_item_eq_ok catalog order Q hQ⟩

/-- Witness for C6: a purchase with the negative quantity -3 succeeds. -/
theorem purchase_item_any_quantity_witness :
    (∃ P ∈ ([⟨1, "A", none, 2, some 1⟩] : List StoreItem),
        P.id = ({ product_id := 1, buyer_name := "B", quantity := -3 } : PurchaseOrder).product_id) ∧
    ∃ conf,
      purchase_item [⟨1, "A", none, 2, some 1⟩]
          { product_id := 1, buyer_name := "B", quantity := -3 } = Except.ok conf :=
  ⟨by decide, purchase_item_any_quantity _ _ (by decide)⟩

/-- C7: an order built without an explicit quantity is processed exactly
as the same order with quantity 1 — the pydantic default makes the two
orders one and the same value. -/
theorem purchase_item_default_quantity (catalog : List StoreItem) (pid : Int) (b : String) :
    purchase_item catalog { product_id := pid, buyer_name := b } =
      purchase_item catalog { product_id := pid, buyer_name := b, quantity := 1 } :=
  rfl

/-- C8: processing never mutates the catalog — in the state-passing
reading of the handlers, the state after a purchase call is the state
before it, the listing observed after the call equals the listing
observed before, and repeating the same call yields an identical
response. -/
theorem purchase_item_frame (s : List StoreItem) (order : PurchaseOrder) :
    (purchase_item_app order s).2 = s ∧
    (list_store_items_app (purchase_item_app order s).2).1 = (list_store_items_app s).1 ∧
    (purchase_item_app order (purchase_item_app order s).2).1 = (purchase_item_app order s).1 :=
  ⟨rfl, rfl, rfl⟩

/-- C9: the listing operation returns the whole seeded catalog as is —
the handler returns the global inventory unchanged, and in the
state-passing reading it returns any state in full, unfiltered and in
order, leaving the state untouched. -/
theorem list_store_items_complete :
    list_store_items = store_inventory ∧
    ∀ s : List StoreItem, list_store_items_app s = (s, s) :=
  ⟨rfl, fun _ => rfl⟩

/-- C10: in the generic items API, retrieval by id is a constant
function — every integer id yields the same static item, and the
function has no failure path, so no id produces a not-found error. -/
theorem read_item_constant (item_id : Int) :
    read_item item_id =
      { name := "Sample", description := some "Example item", price := 100, tax := some 10 } :=
  rfl
